import Mathlib

/-!
Verification of the bitfinex-connector repository.

Shallow embedding of the lock primitives (src/lib/Mutex.js,
src/lib/Semaphore.js), the bounded counter (src/lib/Counter.js), and the
connection-pool routing and protocol decoding of
src/lib/exchange/Bitfinex.js, together with theorems settling the
specification claims about them.
-/

namespace Bfx

/-- Lock word value LOCKED, as in Mutex.js and Semaphore.js (0n). -/
def LOCKED : Int := 0

/-- Lock word value UNLOCKED, as in Mutex.js and Semaphore.js (1n). -/
def UNLOCKED : Int := 1

/-- State of one Mutex handle over its lock word: the 64-bit shared word
and this handle's private owner flag (the private field of Mutex.js,
initially false). -/
structure MutexState where
  word : Int
  owner : Bool
deriving DecidableEq

/-- One compare-and-swap attempt of Mutex.enter (Mutex.js lines 20-37):
if the word is UNLOCKED the CAS succeeds, the word becomes LOCKED and the
handle marks itself owner; otherwise nothing changes and the attempt is
retried on the next polling tick. -/
def mutexEnterTry (s : MutexState) : Bool × MutexState :=
  if s.word = UNLOCKED then (true, ⟨LOCKED, true⟩) else (false, s)

/-- Mutex.leave (Mutex.js lines 40-49): if the handle does not believe it
is the owner, return false and leave everything unchanged; otherwise
store UNLOCKED into the lock word and return true.  The source never
resets the owner flag, so it is carried over unchanged. -/
def mutexLeave (s : MutexState) : Bool × MutexState :=
  if s.owner then (true, ⟨UNLOCKED, s.owner⟩) else (false, s)

/-- State of a Semaphore (src/lib/Semaphore.js): only the private lock
word; the class keeps no ownership information at all. -/
structure SemState where
  word : Int
deriving DecidableEq

/-- One compare-and-swap attempt of Semaphore.enter (Semaphore.js lines
16-31), same CAS loop body as the Mutex. -/
def semEnterTry (s : SemState) : Bool × SemState :=
  if s.word = UNLOCKED then (true, ⟨LOCKED⟩) else (false, s)

/-- Semaphore.leave (Semaphore.js lines 34-38): unconditionally store
UNLOCKED and return true, for any caller in any state. -/
def semLeave (_s : SemState) : Bool × SemState :=
  (true, ⟨UNLOCKED⟩)

/-- Counter.compareInc (src/lib/Counter.js lines 13-22) acting on the
guarded integer: increment only when the current value is strictly below
value - 1, and report whether the increment happened. -/
def compareInc (value counter : Int) : Int × Bool :=
  if counter < value - 1 then (counter + 1, true) else (counter, false)

/-- Counter.dec (src/lib/Counter.js lines 31-36) acting on the guarded
integer. -/
def counterDec (counter : Int) : Int :=
  counter - 1

/-- Iterated application of compareInc with a fixed capacity: the guarded
value after k successive compareInc calls. -/
def iterCompareInc (value : Int) : Nat → Int → Int
  | 0, n => n
  | k + 1, n => iterCompareInc value k (compareInc value n).1

/-- Multi-handle model of one shared Mutex word (src/lib/Mutex.js):
several handles, indexed by naturals, share the word; each has its own
owner flag.  The holder field is a ghost flag marking, for each handle,
whether it is between a successful acquire and its own next release. -/
structure MuSys where
  word : Int
  owner : Nat → Bool
  holder : Nat → Bool

/-- Events of the multi-handle Mutex model: one CAS attempt of enter by
handle i, or one call of leave by handle i. -/
inductive MuEv
  | enter (i : Nat)
  | leave (i : Nat)

/-- Initial system state: the initializing context stored UNLOCKED, no
handle owns or holds. -/
def muInit : MuSys :=
  ⟨UNLOCKED, fun _ => false, fun _ => false⟩

/-- One step of the multi-handle model.  An enter attempt by handle i
succeeds exactly when the word is UNLOCKED (the atomic compareExchange of
Mutex.enter); it then sets the word to LOCKED and this handle's owner and
holder flags.  A leave by handle i follows Mutex.leave: a no-op returning
false when the handle's owner flag is down, otherwise the word is set to
UNLOCKED; the owner flag is not reset (as in the source), while the ghost
holder flag of i is cleared. -/
def muStep (s : MuSys) : MuEv → MuSys
  | .enter i =>
      if s.word = UNLOCKED then
        ⟨LOCKED, fun j => if j = i then true else s.owner j,
          fun j => if j = i then true else s.holder j⟩
      else s
  | .leave i =>
      if s.owner i then
        ⟨UNLOCKED, s.owner, fun j => if j = i then false else s.holder j⟩
      else s

/-- Run the multi-handle Mutex model from the initial state. -/
def muRun (evs : List MuEv) : MuSys :=
  evs.foldl muStep muInit

/-- Association-list lookup with Map.get semantics (first binding of the
key wins, none when absent). -/
def assocLookup {κ α : Type} [DecidableEq κ] : List (κ × α) → κ → Option α
  | [], _ => none
  | (k, v) :: rest, key => if k = key then some v else assocLookup rest key

/-- Association-list update with Map.set semantics (overwrite the first
binding of the key, append when absent). -/
def assocSet {κ α : Type} [DecidableEq κ] : List (κ × α) → κ → α → List (κ × α)
  | [], key, v => [(key, v)]
  | (k, w) :: rest, key, v =>
      if k = key then (key, v) :: rest else (k, w) :: assocSet rest key v

/-- State of BitfinexMultiClient as far as routing is concerned
(src/lib/exchange/Bitfinex.js): the pair routing table (pair to index of
its pooled entry) and the pool of pooled entries in creation order, each
represented by its Counter value.  In the source the table maps to the
entry object itself; entries are shared by reference between the table and
the pool array, which the index models. -/
structure PoolState where
  pairs : List (String × Nat)
  connects : List Int
deriving DecidableEq

/-- Fresh pool: empty routing table, no pooled connections. -/
def poolInit : PoolState :=
  ⟨[], []⟩

/-- Index of the first pooled entry whose compareInc against maxPairs
succeeds, scanning in creation order (the for-of loop of getClient). -/
def scanIdx (maxPairs : Int) : List Int → Option Nat
  | [] => none
  | c :: rest =>
      if (compareInc maxPairs c).2 then some 0
      else (scanIdx maxPairs rest).map (fun k => k + 1)

/-- Replace the counter of entry i by its compareInc successor (the
mutation compareInc performs on the entry that accepted the pair). -/
def bumpAt (cs : List Int) (i : Nat) (maxPairs : Int) : List Int :=
  cs.set i (compareInc maxPairs (cs.getD i 0)).1

/-- Scan-or-create tail of BitfinexMultiClient.getClient
(src/lib/exchange/Bitfinex.js lines 419-438): scan existing pooled
entries in creation order and route the pair to the first whose
compareInc succeeds; otherwise create a new entry with its counter seeded
at 1, append it to the pool and route the pair to it. -/
def getClientScan (maxPairs : Int) (s : PoolState) (pair : String) : PoolState × Nat :=
  match scanIdx maxPairs s.connects with
  | some i => (⟨assocSet s.pairs pair i, bumpAt s.connects i maxPairs⟩, i)
  | none =>
      (⟨assocSet s.pairs pair s.connects.length, s.connects ++ [1]⟩, s.connects.length)

/-- BitfinexMultiClient.getClient (src/lib/exchange/Bitfinex.js lines
410-439): if the pair is already routed, try compareInc on its entry and
reuse it on success; otherwise fall through to the scan-or-create tail. -/
def getClient (maxPairs : Int) (s : PoolState) (pair : String) : PoolState × Nat :=
  match assocLookup s.pairs pair with
  | some idx =>
      if (compareInc maxPairs (s.connects.getD idx 0)).2 then
        (⟨s.pairs, bumpAt s.connects idx maxPairs⟩, idx)
      else getClientScan maxPairs s pair
  | none => getClientScan maxPairs s pair

/-- Route a sequence of pairs through getClient, keeping the evolving
pool state (the counter-reservation part of successive subscribe calls). -/
def routeSeq (maxPairs : Int) (s : PoolState) : List String → PoolState
  | [] => s
  | p :: rest => routeSeq maxPairs (getClient maxPairs s p).1 rest

/-- A JavaScript Promise object carrying the value it will eventually
resolve to. -/
structure JsPromise (α : Type) where
  value : α

/-- JavaScript truthiness of a Promise object: every object is truthy,
independently of the value it later resolves to. -/
def jsTruthy {α : Type} (_p : JsPromise α) : Bool :=
  true

/-- Subscription type tag passed to BitfinexMultiClient.subscribe; the
decoder object of the source has exactly one key, trade. -/
inductive SubKind
  | trade
  | other
deriving DecidableEq

/-- Tail of BitfinexMultiClient.subscribe (src/lib/exchange/Bitfinex.js
lines 451-461) after a counter slot was reserved for the routed entry:
count is the entry's Counter value with the reservation included, subOk is
the boolean the exchange-level subscribeTrades will resolve to.  In the
source, res is the Promise returned by the async decoder arm, not its
resolved value (there is no await), so the truthiness test is applied to
the Promise object itself; the decrement is reached only when no decoder
arm exists for the type tag. -/
def multiSubscribe (count : Int) (kind : SubKind) (subOk : Bool) : Bool × Int :=
  match kind with
  | .trade =>
      let res : JsPromise Bool := ⟨subOk⟩
      if jsTruthy res then (true, count) else (false, counterDec count)
  | .other => (false, counterDec count)

/-- Observable effects of BitfinexClient.emitInfo: emitted events, ping
bookkeeping, a reconnect call, and the console.log of the unknown
platform-status branch. -/
inductive InfoEff
  | emitReady
  | stopPing
  | reconnectCall
  | emitError (msg : String)
  | consoleLog
deriving DecidableEq

/-- Shape of an inbound info envelope as emitInfo reads it: the optional
platform field (by its status), the top-level version field, and the
optional code field. -/
structure InfoMsg where
  platform : Option Int
  version : Int
  code : Option Int
deriving DecidableEq

/-- The platform-status decoder object of emitInfo
(src/lib/exchange/Bitfinex.js lines 139-148): status 1 sets ready and
emits the ready event, status 0 clears ready and stops keepalive; any
other status has no decoder arm.  An arm maps the ready flag to its new
value plus effects. -/
def platformDecoder (status : Int) : Option (Bool → Bool × List InfoEff) :=
  if status = 1 then some (fun _ => (true, [InfoEff.emitReady]))
  else if status = 0 then some (fun _ => (false, [InfoEff.stopPing]))
  else none

/-- The info-code decoder object of emitInfo (src/lib/exchange/Bitfinex.js
lines 157-167): 20051 reconnects, 20060 clears ready and stops keepalive,
20061 sets ready and emits ready; any other code has no arm. -/
def codeDecoder (code : Int) : Option (Bool → Bool × List InfoEff) :=
  if code = 20051 then some (fun r => (r, [InfoEff.reconnectCall]))
  else if code = 20060 then some (fun _ => (false, [InfoEff.stopPing]))
  else if code = 20061 then some (fun _ => (true, [InfoEff.emitReady]))
  else none

/-- The code-field stage and final dispatch of emitInfo
(src/lib/exchange/Bitfinex.js lines 156-175), entered with the decode
selected (or not) by the platform stage: a present code overwrites the
selection (an unknown code emits the error event and returns early); at
the end, a missing selection emits the unknown-info-message error,
otherwise the selected arm runs. -/
def afterPlatform (ready : Bool) (msg : InfoMsg)
    (decode : Option (Bool → Bool × List InfoEff)) : Except String (Bool × List InfoEff) :=
  match msg.code with
  | some c =>
      match codeDecoder c with
      | none => Except.ok (ready, [InfoEff.emitError "Unknown info code status"])
      | some d => Except.ok (d ready)
  | none =>
      match decode with
      | none => Except.ok (ready, [InfoEff.emitError "Unknown info message"])
      | some d => Except.ok (d ready)

/-- BitfinexClient.emitInfo (src/lib/exchange/Bitfinex.js lines 134-176):
given the current ready flag and the envelope, either throws (the thrown
Error message, as Except.error — nothing in onMessage catches it) or
returns the new ready flag and the list of effects.  With a platform
field present, a version other than 2 throws before anything else; an
unknown platform status emits the error event, logs, and returns early;
otherwise the platform arm is selected and the code stage runs. -/
def emitInfo (ready : Bool) (msg : InfoMsg) : Except String (Bool × List InfoEff) :=
  match msg.platform with
  | some st =>
      if msg.version ≠ 2 then
        Except.error ("Unsupported API version: " ++ toString msg.version)
      else
        match platformDecoder st with
        | none =>
            Except.ok (ready, [InfoEff.emitError "unknown platform status", InfoEff.consoleLog])
        | some d => afterPlatform ready msg (some d)
  | none => afterPlatform ready msg none

/-- A market object as the pool manager hands it to the client: pair
identifier plus base and quote metadata. -/
structure Market where
  id : String
  base : String
  quote : String
deriving DecidableEq

/-- The normalized trade record built by the tu arm of
BitfinexClient.updateDecode, field for field. -/
structure Trade where
  exchange : String
  base : String
  quote : String
  tradeId : String
  sequenceId : Int
  unix : Int
  side : String
  price : String
  amount : String
deriving DecidableEq

/-- An inbound channel-update array [chanId, typeTag, payload, seq?] with
a tu payload [tradeId, unixTimestamp, signedAmount, price].  The trade id,
timestamp and sequence id are integers on the wire and are modelled as
such; the signed amount and the price are decimal quantities of at most 8
fractional digits (exactly the precision toFixed(8) exhibits) and are
modelled exactly in fixed point, as integer multiples of 10^-8. -/
structure UpdateMsg where
  chanId : Int
  typeTag : String
  update : Int × Int × Int × Int
  seq : Option Int
deriving DecidableEq

/-- Observable effects of BitfinexClient.updateDecode: an emitted trade
event or an emitted error event. -/
inductive UpdateEff
  | emitTrade (t : Trade) (m : Market)
  | emitError (msg : String)
deriving DecidableEq

/-- Left-pad a digit string with zeros to 8 characters. -/
def pad8 (s : String) : String :=
  String.mk (List.replicate (8 - s.length) '0') ++ s

/-- Number.prototype.toFixed(8) on a nonnegative value held in fixed
point (an integer count of 10^-8 units): print the integer part, a dot,
and exactly 8 fraction digits. -/
def toFixed8Nonneg (v : Int) : String :=
  toString (v / 100000000) ++ "." ++ pad8 (toString (v % 100000000).toNat)

/-- Number.prototype.toFixed(8) on any fixed-point value. -/
def toFixed8 (v : Int) : String :=
  if v < 0 then "-" ++ toFixed8Nonneg (-v) else toFixed8Nonneg v

/-- BitfinexClient.updateDecode (src/lib/exchange/Bitfinex.js lines
229-264): resolve the channel id to its bound pair and the pair to its
tracked market (silently dropping the message when either is missing),
ignore te and hb tags, decode a tu tag into a normalized trade record
(side from the sign of the amount, absolute amount and price as fixed
8-decimal-place text, sequence id defaulting to 0), and report an unknown
tag via the error event. -/
def updateDecode (channels : List (Int × String)) (tradesSub : List (String × Market))
    (msg : UpdateMsg) : List UpdateEff :=
  match assocLookup channels msg.chanId with
  | none => []
  | some pair =>
      match assocLookup tradesSub pair with
      | none => []
      | some market =>
          if msg.typeTag = "te" then []
          else if msg.typeTag = "hb" then []
          else if msg.typeTag = "tu" then
            match msg.update with
            | (id, unix, amount, price) =>
                [UpdateEff.emitTrade
                  ⟨"bitfinex", market.base, market.quote, toString id,
                    msg.seq.getD 0, unix, if 0 < amount then "buy" else "sell",
                    toFixed8 price, toFixed8 |amount|⟩ market]
          else [UpdateEff.emitError ("Unknown update type: " ++ msg.typeTag)]

/-- The market of the worked examples: pair BTC/USD. -/
def mkBtc : Market :=
  ⟨"BTCUSD", "BTC", "USD"⟩

/-- Channel bindings of the worked examples: channel id 5 is bound to
pair BTC/USD. -/
def chansEx : List (Int × String) :=
  [(5, "BTC/USD")]

/-- Tracked subscriptions of the worked examples: pair BTC/USD maps to
its market. -/
def subsEx : List (String × Market) :=
  [("BTC/USD", mkBtc)]

/-- Side field of the trade record that updateDecode emits for a tu
update with the given fixed-point amount, on the bound and tracked
example channel. -/
def decodedSide (a : Int) : String :=
  match updateDecode chansEx subsEx ⟨5, "tu", (9001, 1700000000, a, 10012345678), none⟩ with
  | [UpdateEff.emitTrade t _] => t.side
  | _ => ""

end Bfx

namespace Bfx

/-- Helper: the guarded value never grows past value - 1 once it is at or
below it, along any sequence of compareInc calls. -/
theorem iterCompareInc_le (value : Int) :
    ∀ (k : Nat) (n : Int), n ≤ value - 1 → iterCompareInc value k n ≤ value - 1
  | 0, n, h => h
  | k + 1, n, h => by
      have h2 : (compareInc value n).1 ≤ value - 1 := by
        unfold compareInc
        by_cases hc : n < value - 1
        · simp only [hc, if_true]
          omega
        · simp only [hc, if_false]
          exact h
      simpa [iterCompareInc] using iterCompareInc_le value k (compareInc value n).1 h2

/-- C1: release by a handle that does not believe it is the owner returns
false and changes nothing; release by the owning handle stores UNLOCKED
and returns true, but (amended) the local owner flag is left set rather
than cleared, since Mutex.leave never resets it. -/
theorem mutex_release_contract (s : MutexState) :
    (s.owner = false → mutexLeave s = (false, s)) ∧
    (s.owner = true → mutexLeave s = (true, ⟨UNLOCKED, true⟩)) := by
  constructor
  · intro h
    simp [mutexLeave, h]
  · intro h
    simp [mutexLeave, h]

/-- C1 witness: both branches of the release contract at concrete
states. -/
theorem mutex_release_contract_witness :
    mutexLeave ⟨LOCKED, false⟩ = (false, ⟨LOCKED, false⟩) ∧
    mutexLeave ⟨LOCKED, true⟩ = (true, ⟨UNLOCKED, true⟩) :=
  ⟨(mutex_release_contract ⟨LOCKED, false⟩).1 rfl,
    (mutex_release_contract ⟨LOCKED, true⟩).2 rfl⟩

/-- C1 counterexample: releasing as the owner of a locked word succeeds
and restores UNLOCKED, yet the handle's owner flag is not cleared — it is
still true afterwards, contradicting the claim that release clears it. -/
theorem mutex_release_owner_flag_counterexample :
    (mutexLeave ⟨LOCKED, true⟩).1 = true ∧
    (mutexLeave ⟨LOCKED, true⟩).2.word = UNLOCKED ∧
    ¬ (mutexLeave ⟨LOCKED, true⟩).2.owner = false := by
  decide

/-- C3: compareInc increments the guarded value by exactly one and
returns true exactly when the current value is strictly below
value - 1; otherwise it returns false and leaves the value unchanged. -/
theorem compareInc_contract (value n : Int) :
    ((compareInc value n).2 = true ↔ n < value - 1) ∧
    (n < value - 1 → compareInc value n = (n + 1, true)) ∧
    (¬ n < value - 1 → compareInc value n = (n, false)) := by
  unfold compareInc
  by_cases h : n < value - 1 <;> simp [h]

/-- C3 witness: both branches of the compareInc contract at concrete
values. -/
theorem compareInc_contract_witness :
    ((0 : Int) < 3 - 1 ∧ compareInc 3 0 = (0 + 1, true)) ∧
    (¬ (5 : Int) < 3 - 1 ∧ compareInc 3 5 = (5, false)) :=
  ⟨⟨by decide, (compareInc_contract 3 0).2.1 (by decide)⟩,
    ⟨by decide, (compareInc_contract 3 5).2.2 (by decide)⟩⟩

/-- C4 (amended): starting strictly below value - 1, no sequence of
compareInc calls ever takes the guarded value past value - 1; the value
can reach value - 1 but never exceed it. -/
theorem counter_bound (value n : Int) (h : n < value - 1) (k : Nat) :
    iterCompareInc value k n ≤ value - 1 :=
  iterCompareInc_le value k n (le_of_lt h)

/-- C4 witness: the bound at capacity 3 from value 0 after 5 calls. -/
theorem counter_bound_witness :
    (0 : Int) < 3 - 1 ∧ iterCompareInc 3 5 0 ≤ 3 - 1 :=
  ⟨by decide, counter_bound 3 0 (by decide) 5⟩

/-- C4 counterexample: with capacity 3, from the value 1 (strictly below
3 - 1) a single compareInc call brings the guarded value to exactly
3 - 1, so the value does reach value - 1, contradicting the claim that it
never reaches or exceeds it. -/
theorem counter_bound_counterexample :
    (1 : Int) < 3 - 1 ∧ iterCompareInc 3 1 1 = 3 - 1 ∧
    ¬ iterCompareInc 3 1 1 < 3 - 1 := by
  decide

/-- C5: with a reserved slot (count 1) and an exchange-level subscribe
that fails (resolves false), BitfinexMultiClient.subscribe still returns
true and never reaches the decrement: the truthiness test is applied to
the Promise object itself, which is always truthy, so the reserved
counter slot leaks — the code diverges from the claimed
decrement-on-failure. -/
theorem subscribe_counter_leak :
    multiSubscribe 1 SubKind.trade false = (true, 1) ∧
    ¬ multiSubscribe 1 SubKind.trade false = (false, counterDec 1) := by
  decide

/-- C6 (amended): Semaphore.leave tracks no ownership at all; for any
state it unconditionally stores UNLOCKED into the lock word and returns
true, so the Local Lock does not share the Shared Lock's
failure-on-non-owner release behaviour. -/
theorem sem_release_unconditional (s : SemState) :
    semLeave s = (true, ⟨UNLOCKED⟩) :=
  rfl

/-- C6 counterexample: a leave on a locked word by a handle that never
acquired returns true (not a failure indicator) and changes the lock word
from LOCKED to UNLOCKED, contradicting the claimed
failure-and-leave-unchanged behaviour. -/
theorem sem_release_counterexample :
    (semLeave ⟨LOCKED⟩).1 = true ∧
    ¬ (semLeave ⟨LOCKED⟩).1 = false ∧
    ¬ (semLeave ⟨LOCKED⟩).2.word = LOCKED := by
  decide

/-- C7 (amended): an inbound info envelope with a platform field and a
protocol version other than 2 makes emitInfo throw an Error carrying the
unsupported-version message (which nothing in the message handler
catches); it is not reported via the error event. -/
theorem info_version_throws (ready : Bool) (msg : InfoMsg) (st : Int)
    (h1 : msg.platform = some st) (h2 : msg.version ≠ 2) :
    emitInfo ready msg = Except.error ("Unsupported API version: " ++ toString msg.version) := by
  obtain ⟨p, v, c⟩ := msg
  simp only [InfoMsg.platform] at h1
  simp only [InfoMsg.version] at h2 ⊢
  subst h1
  simp [emitInfo, h2]

/-- C7 witness: the throw at a concrete envelope with version 3. -/
theorem info_version_throws_witness :
    (⟨some 1, 3, none⟩ : InfoMsg).platform = some 1 ∧
    ((⟨some 1, 3, none⟩ : InfoMsg).version ≠ 2) ∧
    emitInfo true ⟨some 1, 3, none⟩ =
      Except.error ("Unsupported API version: " ++ toString (3 : Int)) :=
  ⟨rfl, by decide, info_version_throws true ⟨some 1, 3, none⟩ 1 rfl (by decide)⟩

/-- C7 counterexample: on the version-3 envelope emitInfo throws instead
of emitting the error event, so the handler does not survive the message
as the claim states. -/
theorem info_version_counterexample :
    emitInfo false ⟨some 1, 3, none⟩ = Except.error "Unsupported API version: 3" :=
  rfl

/-- C8: decoding the channel update [5, tu, [9001, 1700000000, -0.5,
100.12345678]] with channel 5 bound to tracked pair BTC/USD emits a trade
with side sell, amount 0.50000000, price 100.12345678, tradeId 9001 and
sequenceId 0; in general the side comes from the sign of the amount, the
sequence id defaults to 0, and the absolute amount and the price are
printed as fixed 8-decimal-place text. -/
theorem trade_decode_contract :
    updateDecode chansEx subsEx ⟨5, "tu", (9001, 1700000000, -50000000, 10012345678), none⟩ =
      [UpdateEff.emitTrade
        ⟨"bitfinex", "BTC", "USD", "9001", 0, 1700000000, "sell", "100.12345678",
          "0.50000000"⟩ mkBtc] ∧
    ∀ (a p : Int) (sq : Option Int),
      updateDecode chansEx subsEx ⟨5, "tu", (9001, 1700000000, a, p), sq⟩ =
        [UpdateEff.emitTrade
          ⟨"bitfinex", "BTC", "USD", "9001", sq.getD 0, 1700000000,
            (if 0 < a then "buy" else "sell"), toFixed8 p, toFixed8 |a|⟩ mkBtc] :=
  ⟨by decide, fun _ _ _ => rfl⟩

/-- C9: a terminating trace of the shared Mutex in which two handles hold
the lock at the same instant.  Handle 0 acquires and releases, handle 1
acquires; handle 0, whose owner flag was never cleared by its earlier
release, calls leave again and resets the word to UNLOCKED while handle 1
still holds; handle 2 then acquires.  Afterwards handles 1 and 2 are both
between a successful acquire and their release, so the at-most-one-holder
claim fails on the code. -/
theorem mutex_double_holder :
    (muRun [MuEv.enter 0, MuEv.leave 0, MuEv.enter 1, MuEv.leave 0, MuEv.enter 2]).holder 1
      = true ∧
    (muRun [MuEv.enter 0, MuEv.leave 0, MuEv.enter 1, MuEv.leave 0, MuEv.enter 2]).holder 2
      = true :=
  ⟨rfl, rfl⟩

/-- C10: a zero-amount trade update on the bound, tracked channel decodes
to side sell with amount 0.00000000, and in general the emitted side is
buy exactly when the signed amount is strictly positive. -/
theorem trade_zero_amount_contract :
    updateDecode chansEx subsEx ⟨5, "tu", (9001, 1700000000, 0, 10012345678), none⟩ =
      [UpdateEff.emitTrade
        ⟨"bitfinex", "BTC", "USD", "9001", 0, 1700000000, "sell", "100.12345678",
          "0.00000000"⟩ mkBtc] ∧
    ∀ (a : Int), decodedSide a = "buy" ↔ 0 < a := by
  refine ⟨by decide, fun a => ?_⟩
  by_cases h : (0 : Int) < a
  · simp [decodedSide, updateDecode, assocLookup, h]
  · simp [decodedSide, updateDecode, assocLookup, h]

/-- C2 (amended): with maxPairs = 2 and a fresh pool, subscribing 3
distinct pairs yields three pooled connections, one per pair — counters
are seeded at 1 and compareInc 2 requires the counter to be below 1, so
no existing connection ever has spare capacity at this setting — and a
4th distinct pair creates a fourth; every newly created entry has its
counter seeded at 1 and is appended to the pool, and the pair is routed
to it. -/
theorem pool_packing_contract :
    (routeSeq 2 poolInit ["P1", "P2", "P3"]).connects = [1, 1, 1] ∧
    (routeSeq 2 poolInit ["P1", "P2", "P3"]).pairs = [("P1", 0), ("P2", 1), ("P3", 2)] ∧
    (routeSeq 2 poolInit ["P1", "P2", "P3", "P4"]).connects = [1, 1, 1, 1] ∧
    ∀ (m : Int) (s : PoolState) (p : String),
      assocLookup s.pairs p = none → scanIdx m s.connects = none →
      getClient m s p =
        (⟨assocSet s.pairs p s.connects.length, s.connects ++ [1]⟩, s.connects.length) := by
  refine ⟨by decide, by decide, by decide, fun m s p h1 h2 => ?_⟩
  simp [getClient, getClientScan, h1, h2]

/-- C2 witness: the creation branch at a fresh pool. -/
theorem pool_packing_contract_witness :
    assocLookup poolInit.pairs "P1" = none ∧ scanIdx 2 poolInit.connects = none ∧
    getClient 2 poolInit "P1" = (⟨[("P1", 0)], [1]⟩, 0) :=
  ⟨rfl, rfl, pool_packing_contract.2.2.2 2 poolInit "P1" rfl rfl⟩

/-- C2 counterexample: with maxPairs = 2, subscribing the 3 distinct
pairs P1, P2, P3 to a fresh pool yields three pooled connections, not the
two the claim states. -/
theorem pool_packing_counterexample :
    (routeSeq 2 poolInit ["P1", "P2", "P3"]).connects.length = 3 ∧
    ¬ (routeSeq 2 poolInit ["P1", "P2", "P3"]).connects.length = 2 := by
  decide

end Bfx
